import Mathlib

/-!
Shallow embedding of `src/model_factory.py` (model abstraction and factory
for the incident-protocol recommender).

Modelling conventions:
- Python exceptions become values of `PyError`; a method that can raise
  returns `Except PyError _`.
- A method that may mutate `self` returns the updated instance alongside its
  result, so state change is explicit.
- The external classification library (decision tree / random forest
  internals) is out of scope of the repository and is treated, as the spec
  says, as a correct deterministic black box: a classifier object stores its
  hyperparameters and, once fitted, the fit data; the actual learned
  prediction function is an arbitrary parameter `Backend.predFn`.
- Feature rows are `List ℚ`, class labels are `Int`; metric arithmetic is
  exact rational arithmetic.
-/

namespace ModelFactory

/-- Errors raised by the module. `notInitialized` is the
ValueError with message Model not initialized raised by `train`;
`notTrained` is the ValueError with message Model not trained raised by
`predict`; `unknownModelType` is the ValueError raised by `get_model`, whose
f-string message interpolates the offending key and the list of registered
keys (we model the message by its two interpolated data items);
`backendNotFitted` is the not-fitted error raised by the external library
when an unfitted classifier object is asked to predict. -/
inductive PyError where
  | notInitialized
  | notTrained
  | unknownModelType (offending : String) (available : List String)
  | backendNotFitted
  deriving DecidableEq

/-- Data stored by a fit call of the external library: the training matrix
and labels the classifier was fitted on. -/
structure FitData where
  xs : List (List ℚ)
  ys : List Int
  deriving DecidableEq

/-- Hyperparameters accepted by the two external classifier constructors. -/
inductive SkHyper where
  | decisionTree (max_depth : Int) (random_state : Int)
  | randomForest (n_estimators : Int) (max_depth : Int) (random_state : Int)
  deriving DecidableEq

/-- Modelled from the spec: an external classifier object is an opaque owned
resource holding its construction-time hyperparameters and, after `fit`, its
learned state (here: the fit data). `fitted = none` means no fit has been
performed. -/
structure SkClassifier where
  hyper : SkHyper
  fitted : Option FitData
  deriving DecidableEq

/-- Modelled from the spec: the external library is a correct deterministic
black box; `predFn` is the (arbitrary) label its fitted algorithm assigns to
one input row, as a function of the hyperparameters and the stored fit. -/
structure Backend where
  predFn : SkHyper → FitData → List ℚ → Int

/-- Fit of the external classifier: stores the training data as the learned
state, replacing any previous fit (in place on the classifier object). -/
def skFit (c : SkClassifier) (xs : List (List ℚ)) (ys : List Int) : SkClassifier :=
  { c with fitted := some ⟨xs, ys⟩ }

/-- Predict of the external classifier: on an unfitted object the library
raises its not-fitted error; on a fitted object it maps `predFn` over the
rows (no validation of row width). -/
def skPredict (b : Backend) (c : SkClassifier) (xs : List (List ℚ)) :
    Except PyError (List Int) :=
  match c.fitted with
  | none => .error .backendNotFitted
  | some d => .ok (xs.map (b.predFn c.hyper d))

/-- A concrete backend instance (constantly predicts label 0), used to
evaluate the embedding on concrete inputs. -/
def backend0 : Backend := ⟨fun _ _ _ => 0⟩

/-- Number of true occurrences of class `c` (its support). -/
def support (y_true : List Int) (c : Int) : Nat := y_true.count c

/-- Number of predicted occurrences of class `c`. -/
def predCount (y_pred : List Int) (c : Int) : Nat := y_pred.count c

/-- Number of positions where both the true and the predicted label are `c`. -/
def tpCount (y_true y_pred : List Int) (c : Int) : Nat :=
  ((y_true.zip y_pred).filter (fun p => p.1 == c && p.2 == c)).length

/-- Per-class precision with zero-division defined as 0. -/
def precClass (y_true y_pred : List Int) (c : Int) : ℚ :=
  if predCount y_pred c = 0 then 0
  else (tpCount y_true y_pred c : ℚ) / (predCount y_pred c : ℚ)

/-- Per-class recall with zero-division defined as 0. -/
def recClass (y_true y_pred : List Int) (c : Int) : ℚ :=
  if support y_true c = 0 then 0
  else (tpCount y_true y_pred c : ℚ) / (support y_true c : ℚ)

/-- The class set over which the metrics aggregate: the distinct labels
occurring in the true or predicted label vectors. -/
def metricClasses (y_true y_pred : List Int) : List Int := (y_true ++ y_pred).dedup

/-- Modelled from the spec: weighted-average precision across classes, the
class-wise values combined with weights proportional to each class frequency
in the true label set, zero-division defined as 0 (the external metrics
routine with weighted averaging). -/
def precision_score (y_true y_pred : List Int) : ℚ :=
  if y_true.length = 0 then 0
  else (((metricClasses y_true y_pred).map
    (fun c => (support y_true c : ℚ) * precClass y_true y_pred c)).sum) /
    (y_true.length : ℚ)

/-- Modelled from the spec: weighted-average recall, same weighting and
zero-division policy as `precision_score`. -/
def recall_score (y_true y_pred : List Int) : ℚ :=
  if y_true.length = 0 then 0
  else (((metricClasses y_true y_pred).map
    (fun c => (support y_true c : ℚ) * recClass y_true y_pred c)).sum) /
    (y_true.length : ℚ)

/-- A persisted model artifact: the serialized-object blob holds exactly the
pickled value of the `model` attribute, which may be a classifier object or
None. -/
abbrev Artifact := Option SkClassifier

/-- Modelled from the spec: serialization (pickle.dump) of the classifier
attribute; the format is opaque and round-trip faithful, so we model the
blob by the serialized value itself. Serializing None succeeds. -/
def pickle_dump (obj : Option SkClassifier) : Artifact := obj

/-- Modelled from the spec: deserialization (pickle.load) of a readable,
well-formed blob returns the value that was serialized. -/
def pickle_load (a : Artifact) : Option SkClassifier := a

/-- Python class ModelBase: owns an optional underlying classifier object
(attribute `model`) and a variant name (attribute `model_name`). -/
structure ModelBase where
  model : Option SkClassifier
  model_name : String
  deriving DecidableEq

/-- ModelBase constructor: `model = None`, `model_name = "BaseModel"`. -/
def baseModel : ModelBase := ⟨none, "BaseModel"⟩

/-- Method `ModelBase.train`: raises the not-initialized ValueError when
`model` is None, otherwise fits the underlying classifier in place and
returns None (unit). -/
def ModelBase.train (m : ModelBase) (X_train : List (List ℚ)) (y_train : List Int) :
    Except PyError (Unit × ModelBase) :=
  match m.model with
  | none => .error .notInitialized
  | some c => .ok ((), { m with model := some (skFit c X_train y_train) })

/-- Method `ModelBase.predict`: raises the not-trained ValueError when
`model` is None, otherwise delegates to the underlying classifier,
propagating any backend error; `self` is not mutated. -/
def ModelBase.predict (m : ModelBase) (b : Backend) (X : List (List ℚ)) :
    Except PyError (List Int × ModelBase) :=
  match m.model with
  | none => .error .notTrained
  | some c =>
    match skPredict b c X with
    | .error e => .error e
    | .ok ys => .ok (ys, m)

/-- Method `ModelBase.evaluate`: calls `predict`, then returns the dict
with keys precision, recall, f1_score, where f1_score is
2·P·R/(P+R) when P+R > 0 and 0 otherwise, computed from the weighted
precision and recall values. -/
def ModelBase.evaluate (m : ModelBase) (b : Backend) (X_test : List (List ℚ))
    (y_test : List Int) : Except PyError (List (String × ℚ) × ModelBase) :=
  match m.predict b X_test with
  | .error e => .error e
  | .ok (y_pred, m') =>
    .ok ([("precision", precision_score y_test y_pred),
          ("recall", recall_score y_test y_pred),
          ("f1_score",
            if precision_score y_test y_pred + recall_score y_test y_pred > 0 then
              2 * (precision_score y_test y_pred * recall_score y_test y_pred) /
                (precision_score y_test y_pred + recall_score y_test y_pred)
            else 0)], m')

/-- Method `ModelBase.save`: pickles exactly the `model` attribute to the
file; `self` is not mutated. The written artifact is the first component. -/
def ModelBase.save (m : ModelBase) : Artifact × ModelBase :=
  (pickle_dump m.model, m)

/-- Method `ModelBase.load`: unconditionally replaces the `model` attribute
with the deserialized value, with no inspection or validation of it, and
returns None (unit). -/
def ModelBase.load (m : ModelBase) (a : Artifact) : Unit × ModelBase :=
  ((), { m with model := pickle_load a })

/-- Spec state observer: an instance is untrained when a classifier object is
present but no fit has been performed on it. -/
def ModelBase.untrained (m : ModelBase) : Bool :=
  match m.model with
  | none => false
  | some c => c.fitted.isNone

/-- Spec state observer: an instance is trained when its classifier object is
present and fitted. -/
def ModelBase.trained (m : ModelBase) : Bool :=
  match m.model with
  | none => false
  | some c => c.fitted.isSome

/-- External constructor DecisionTreeClassifier: stores the passed
hyperparameters, unfitted. -/
def DecisionTreeClassifier (max_depth : Int) (random_state : Int) : SkClassifier :=
  ⟨SkHyper.decisionTree max_depth random_state, none⟩

/-- External constructor RandomForestClassifier: stores the passed
hyperparameters, unfitted. -/
def RandomForestClassifier (n_estimators : Int) (max_depth : Int) (random_state : Int) :
    SkClassifier :=
  ⟨SkHyper.randomForest n_estimators max_depth random_state, none⟩

/-- Python class DecisionTreeModel: calls the base constructor, then sets
`model` to a DecisionTreeClassifier built from exactly `max_depth` and
`random_state`, and `model_name` to DecisionTree. -/
def DecisionTreeModel (max_depth : Int) (random_state : Int) : ModelBase :=
  { baseModel with
    model := some (DecisionTreeClassifier max_depth random_state),
    model_name := "DecisionTree" }

/-- Python class RandomForestModel: calls the base constructor, then sets
`model` to a RandomForestClassifier built from exactly `n_estimators`,
`max_depth` and `random_state`, and `model_name` to RandomForest. -/
def RandomForestModel (n_estimators : Int) (max_depth : Int) (random_state : Int) :
    ModelBase :=
  { baseModel with
    model := some (RandomForestClassifier n_estimators max_depth random_state),
    model_name := "RandomForest" }

/-- DecisionTreeModel invoked with no arguments: Python fills in the declared
defaults max_depth=10, random_state=42. -/
def DecisionTreeModelDefault : ModelBase := DecisionTreeModel 10 42

/-- RandomForestModel invoked with no arguments: Python fills in the declared
defaults n_estimators=100, max_depth=10, random_state=42. -/
def RandomForestModelDefault : ModelBase := RandomForestModel 100 10 42

/-- The factory registry dict: key to the no-argument application of the
registered constructor. -/
def models : List (String × ModelBase) :=
  [("decision_tree", DecisionTreeModelDefault),
   ("random_forest", RandomForestModelDefault)]

/-- The keys of the factory registry, in dict insertion order (what
list(models.keys()) yields). -/
def availableKeys : List String := models.map Prod.fst

/-- Function `get_model`: looks the key up in the registry; when absent,
raises the unknown-model-type ValueError carrying the offending key and the
registered key list; when present, returns the constructor applied with no
arguments. -/
def get_model (model_type : String) : Except PyError ModelBase :=
  match models.find? (fun kv => kv.1 == model_type) with
  | none => .error (.unknownModelType model_type availableKeys)
  | some kv => .ok kv.2

/-- Python object identity for factory results: every constructor call
allocates a fresh object. We index the returned instance by an allocation
counter, which the call advances, so distinct calls yield distinct ids. -/
def get_model_alloc (nextId : Nat) (model_type : String) :
    Except PyError ((Nat × ModelBase) × Nat) :=
  (get_model model_type).map (fun m => ((nextId, m), nextId + 1))

/-- A concrete trained decision-tree instance (the factory default after a
train call), used to evaluate the embedding on concrete inputs. -/
def dtTrainedExample : ModelBase :=
  ⟨some ⟨SkHyper.decisionTree 10 42, some ⟨[[1], [2]], [0, 1]⟩⟩, "DecisionTree"⟩

/-- C9: when constructed without explicit configuration, DecisionTreeModel
uses max_depth 10 and random_state 42, and RandomForestModel uses
n_estimators 100, max_depth 10 and random_state 42; each constructor passes
exactly its explicit configuration options to its underlying classifier. -/
theorem variant_constructor_defaults :
    DecisionTreeModelDefault = DecisionTreeModel 10 42 ∧
    RandomForestModelDefault = RandomForestModel 100 10 42 ∧
    (∀ md rs : Int, DecisionTreeModel md rs =
      ⟨some ⟨SkHyper.decisionTree md rs, none⟩, "DecisionTree"⟩) ∧
    (∀ n md rs : Int, RandomForestModel n md rs =
      ⟨some ⟨SkHyper.randomForest n md rs, none⟩, "RandomForest"⟩) :=
  ⟨rfl, rfl, fun _ _ => rfl, fun _ _ _ => rfl⟩

/-- C3: for each registered key the factory returns an untrained instance of
the matching variant with the matching name; under the allocation model two
factory calls never return the same object. -/
theorem get_model_registered :
    (∃ m, get_model "decision_tree" = .ok m ∧
      m.model_name = "DecisionTree" ∧ m.untrained = true) ∧
    (∃ m, get_model "random_forest" = .ok m ∧
      m.model_name = "RandomForest" ∧ m.untrained = true) ∧
    (∀ n k₁ k₂ id₁ m₁ n₁ id₂ m₂ n₂,
      get_model_alloc n k₁ = .ok ((id₁, m₁), n₁) →
      get_model_alloc n₁ k₂ = .ok ((id₂, m₂), n₂) →
      id₁ ≠ id₂) := by
  refine ⟨⟨DecisionTreeModelDefault, rfl, rfl, rfl⟩,
    ⟨RandomForestModelDefault, rfl, rfl, rfl⟩, ?_⟩
  intro n k₁ k₂ id₁ m₁ n₁ id₂ m₂ n₂ h₁ h₂
  have e₁ : id₁ = n ∧ n₁ = n + 1 := by
    cases hg : get_model k₁ with
    | error e => simp [get_model_alloc, hg, Except.map] at h₁
    | ok m => simp [get_model_alloc, hg, Except.map] at h₁; exact ⟨h₁.1.1.symm, h₁.2.symm⟩
  have e₂ : id₂ = n₁ := by
    cases hg : get_model k₂ with
    | error e => simp [get_model_alloc, hg, Except.map] at h₂
    | ok m => simp [get_model_alloc, hg, Except.map] at h₂; exact h₂.1.1.symm
  omega

/-- C3 witness: two concrete consecutive factory calls yield distinct ids. -/
theorem get_model_registered_witness : (0 : Nat) ≠ 1 :=
  get_model_registered.2.2 0 "decision_tree" "random_forest"
    0 DecisionTreeModelDefault 1 1 RandomForestModelDefault 2 rfl rfl

/-- C4: for every key outside the registry, the factory fails with the
unknown-model-type ValueError naming the offending key and enumerating
exactly the registered keys decision_tree and random_forest. -/
theorem get_model_unknown_key (key : String) (h : key ∉ availableKeys) :
    get_model key = .error (.unknownModelType key ["decision_tree", "random_forest"]) ∧
    availableKeys = ["decision_tree", "random_forest"] := by
  have h₁ : key ≠ "decision_tree" := by
    intro e; exact h (by simp [availableKeys, models, e])
  have h₂ : key ≠ "random_forest" := by
    intro e; exact h (by simp [availableKeys, models, e])
  refine ⟨?_, rfl⟩
  have b₁ : ("decision_tree" == key) = false := by
    simp [h₁.symm]
  have b₂ : ("random_forest" == key) = false := by
    simp [h₂.symm]
  simp [get_model, models, List.find?, b₁, b₂, availableKeys]

/-- C4 witness: the factory rejects the concrete key unknown_key with the
documented error payload. -/
theorem get_model_unknown_key_witness :
    get_model "unknown_key" =
      .error (.unknownModelType "unknown_key" ["decision_tree", "random_forest"]) :=
  (get_model_unknown_key "unknown_key" (by decide)).1

/-- C6: train fails with the not-initialized error exactly when no underlying
classifier is set; otherwise it fits the classifier in place, returns unit,
and the instance is afterwards trained. -/
theorem train_spec (m : ModelBase) (X : List (List ℚ)) (y : List Int) :
    (m.model = none → m.train X y = .error .notInitialized) ∧
    (∀ c, m.model = some c →
      m.train X y = .ok ((), { m with model := some (skFit c X y) }) ∧
      ModelBase.trained { m with model := some (skFit c X y) } = true) := by
  constructor
  · intro h; simp [ModelBase.train, h]
  · intro c h
    constructor
    · simp [ModelBase.train, h]
    · simp [ModelBase.trained, skFit]

/-- C6 witness: train on the bare base instance fails with the
not-initialized error; train on the factory default fits it. -/
theorem train_spec_witness :
    baseModel.train [[1]] [0] = .error .notInitialized ∧
    DecisionTreeModelDefault.train [[1]] [0] =
      .ok ((), { DecisionTreeModelDefault with
        model := some (skFit (DecisionTreeClassifier 10 42) [[1]] [0]) }) :=
  ⟨(train_spec baseModel [[1]] [0]).1 rfl,
   ((train_spec DecisionTreeModelDefault [[1]] [0]).2
     (DecisionTreeClassifier 10 42) rfl).1⟩

/-- C7: load returns unit and unconditionally replaces the classifier
attribute with the deserialized value, independent of the prior state and
with no validation of the loaded object; when the artifact holds a fitted
classifier the instance is afterwards trained. -/
theorem load_spec (m : ModelBase) (a : Artifact) :
    (ModelBase.load m a).1 = () ∧
    (ModelBase.load m a).2 = { m with model := pickle_load a } ∧
    (∀ c, a = some c → c.fitted.isSome = true →
      ((ModelBase.load m a).2).trained = true) := by
  refine ⟨rfl, rfl, ?_⟩
  intro c hc hf
  simp [ModelBase.load, ModelBase.trained, pickle_load, hc, hf]

/-- C7 witness: loading a fitted artifact into the bare base instance
replaces its classifier and makes it trained. -/
theorem load_spec_witness :
    (ModelBase.load baseModel dtTrainedExample.model).2 =
      { baseModel with model := dtTrainedExample.model } ∧
    ((ModelBase.load baseModel dtTrainedExample.model).2).trained = true :=
  ⟨(load_spec baseModel dtTrainedExample.model).2.1,
   (load_spec baseModel dtTrainedExample.model).2.2
     ⟨SkHyper.decisionTree 10 42, some ⟨[[1], [2]], [0, 1]⟩⟩ rfl rfl⟩

/-- C10: for an instance whose classifier attribute is None, save succeeds
and writes the serialized None; loading that artifact sets the loaded
instance's classifier to None, after which predict fails with the
not-trained error. -/
theorem save_load_none_model (b : Backend) (m f : ModelBase)
    (X : List (List ℚ)) (h : m.model = none) :
    (ModelBase.save m).1 = pickle_dump none ∧
    ((ModelBase.load f (ModelBase.save m).1).2).model = none ∧
    ((ModelBase.load f (ModelBase.save m).1).2).predict b X = .error .notTrained := by
  refine ⟨by simp [ModelBase.save, pickle_dump, h], ?_, ?_⟩
  · simp [ModelBase.save, ModelBase.load, pickle_dump, pickle_load, h]
  · simp [ModelBase.save, ModelBase.load, ModelBase.predict,
      pickle_dump, pickle_load, h]

/-- C10 witness: the round trip through a pickled None on the bare base
instance, loaded into a factory default, ends in the not-trained error. -/
theorem save_load_none_model_witness :
    ((ModelBase.load DecisionTreeModelDefault (ModelBase.save baseModel).1).2).predict
      backend0 [[1]] = .error .notTrained :=
  (save_load_none_model backend0 baseModel DecisionTreeModelDefault [[1]] rfl).2.2

/-- C1 counterexample: a freshly factory-constructed decision-tree instance
is untrained, yet its classifier attribute is present, so predict and
evaluate do not fail with the wrapper's not-trained error; they fail with
the external backend's not-fitted error instead. -/
theorem fresh_factory_predict_counterexample :
    get_model "decision_tree" = .ok DecisionTreeModelDefault ∧
    DecisionTreeModelDefault.untrained = true ∧
    DecisionTreeModelDefault.predict backend0 [[0]] ≠
      .error PyError.notTrained ∧
    DecisionTreeModelDefault.predict backend0 [[0]] =
      .error PyError.backendNotFitted ∧
    DecisionTreeModelDefault.evaluate backend0 [[0]] [0] ≠
      .error PyError.notTrained ∧
    DecisionTreeModelDefault.evaluate backend0 [[0]] [0] =
      .error PyError.backendNotFitted := by
  refine ⟨rfl, rfl, ?_, rfl, ?_, rfl⟩
  · intro hc
    injection hc with h₂
    exact PyError.noConfusion h₂
  · intro hc
    injection hc with h₂
    exact PyError.noConfusion h₂

/-- C1 amended: predict and evaluate fail with the not-trained error exactly
when the underlying classifier is absent; a freshly factory-constructed
instance has a classifier object present, so on it both calls fail with the
external backend's not-fitted error instead. -/
theorem predict_untrained_errors (b : Backend) (m : ModelBase)
    (X : List (List ℚ)) (y : List Int) :
    (m.model = none →
      m.predict b X = .error .notTrained ∧
      m.evaluate b X y = .error .notTrained) ∧
    (∀ key m₀, get_model key = .ok m₀ →
      m₀.predict b X = .error .backendNotFitted ∧
      m₀.evaluate b X y = .error .backendNotFitted) := by
  constructor
  · intro h
    constructor
    · simp [ModelBase.predict, h]
    · simp [ModelBase.evaluate, ModelBase.predict, h]
  · intro key m₀ hk
    have hm : m₀ = DecisionTreeModelDefault ∨ m₀ = RandomForestModelDefault := by
      by_cases e₁ : ("decision_tree" == key) = true
      · left
        simpa [get_model, models, List.find?, e₁] using hk.symm
      · by_cases e₂ : ("random_forest" == key) = true
        · right
          simpa [get_model, models, List.find?,
            Bool.of_not_eq_true e₁, e₂] using hk.symm
        · exfalso
          simp [get_model, models, List.find?,
            Bool.of_not_eq_true e₁, Bool.of_not_eq_true e₂] at hk
    rcases hm with h | h <;> subst h <;> constructor <;> rfl

/-- C1 amended witness: on the bare base instance predict fails with the
not-trained error, on the factory default with the backend error. -/
theorem predict_untrained_errors_witness :
    baseModel.predict backend0 [[1]] = .error .notTrained ∧
    DecisionTreeModelDefault.predict backend0 [[1]] = .error .backendNotFitted :=
  ⟨((predict_untrained_errors backend0 baseModel [[1]] [0]).1 rfl).1,
   ((predict_untrained_errors backend0 DecisionTreeModelDefault [[1]] [0]).2
     "decision_tree" DecisionTreeModelDefault rfl).1⟩

/-- C2: whenever the internal predict call succeeds, evaluate returns the
mapping with exactly the keys precision, recall and f1_score, where
precision and recall are the weighted-average scores over the true and
predicted labels, f1_score is 2·P·R/(P+R) computed from those weighted
values when P+R is positive and exactly 0 when P+R is 0, and the per-class
scores define zero-division as 0. -/
theorem evaluate_metrics_spec (b : Backend) (m m' : ModelBase)
    (X : List (List ℚ)) (y_test y_pred : List Int)
    (h : m.predict b X = .ok (y_pred, m')) :
    m.evaluate b X y_test =
      .ok ([("precision", precision_score y_test y_pred),
            ("recall", recall_score y_test y_pred),
            ("f1_score",
              if precision_score y_test y_pred + recall_score y_test y_pred > 0 then
                2 * (precision_score y_test y_pred * recall_score y_test y_pred) /
                  (precision_score y_test y_pred + recall_score y_test y_pred)
              else 0)], m') ∧
    (∀ P R : ℚ, P + R = 0 →
      (if P + R > 0 then 2 * (P * R) / (P + R) else 0) = 0) ∧
    (∀ yt yp : List Int, ∀ c : Int, predCount yp c = 0 → precClass yt yp c = 0) ∧
    (∀ yt yp : List Int, ∀ c : Int, support yt c = 0 → recClass yt yp c = 0) := by
  refine ⟨?_, ?_, ?_, ?_⟩
  · simp only [ModelBase.evaluate, h]
  · intro P R hPR
    rw [if_neg]
    rw [hPR]
    exact lt_irrefl 0
  · intro yt yp c hc
    simp [precClass, hc]
  · intro yt yp c hc
    simp [recClass, hc]

/-- C2 witness: evaluate on a concrete trained instance returns exactly the
three documented keys with the documented values. -/
theorem evaluate_metrics_spec_witness :
    dtTrainedExample.evaluate backend0 [[5]] [1] =
      .ok ([("precision", precision_score [1] [0]),
            ("recall", recall_score [1] [0]),
            ("f1_score",
              if precision_score [1] [0] + recall_score [1] [0] > 0 then
                2 * (precision_score [1] [0] * recall_score [1] [0]) /
                  (precision_score [1] [0] + recall_score [1] [0])
              else 0)], dtTrainedExample) :=
  (evaluate_metrics_spec backend0 dtTrainedExample dtTrainedExample
    [[5]] [1] [0] rfl).1

/-- C5: save writes exactly the pickled classifier attribute, and loading
that artifact into a fresh untrained instance of the same variant makes its
predictions on every fixed input identical to the original trained
instance's predictions. -/
theorem save_load_round_trip (b : Backend) (m f : ModelBase)
    (X : List (List ℚ)) (hname : f.model_name = m.model_name)
    (hm : m.trained = true) (hf : f.untrained = true) :
    (ModelBase.save m).1 = pickle_dump m.model ∧
    ((ModelBase.load f (ModelBase.save m).1).2).predict b X = m.predict b X := by
  refine ⟨rfl, ?_⟩
  have hfm : (ModelBase.load f (ModelBase.save m).1).2 = m := by
    cases m with
    | mk mm mn =>
      cases f with
      | mk fm fn =>
        simp only [ModelBase.model_name] at hname
        simp [ModelBase.load, ModelBase.save, pickle_dump, pickle_load, hname]
  rw [hfm]

/-- C5 witness: the concrete trained decision tree, saved and loaded into a
fresh factory-built decision tree, predicts identically. -/
theorem save_load_round_trip_witness :
    ((ModelBase.load DecisionTreeModelDefault (ModelBase.save dtTrainedExample).1).2).predict
      backend0 [[7]] = dtTrainedExample.predict backend0 [[7]] :=
  (save_load_round_trip backend0 dtTrainedExample DecisionTreeModelDefault
    [[7]] rfl rfl rfl).2

/-- C8: on a trained instance, predict, evaluate and save leave the instance
unchanged: whenever predict or evaluate succeed they return the instance
itself, and save returns the instance itself, so classifier, name and
trained state are all preserved. -/
theorem trained_ops_frame (b : Backend) (m : ModelBase) (h : m.trained = true) :
    (∀ X r m', m.predict b X = .ok (r, m') → m' = m) ∧
    (∀ X y r m', m.evaluate b X y = .ok (r, m') → m' = m) ∧
    (ModelBase.save m).2 = m := by
  have hp : ∀ X r m', m.predict b X = .ok (r, m') → m' = m := by
    intro X r m' hpred
    cases hm : m.model with
    | none => simp [ModelBase.predict, hm] at hpred
    | some c =>
      cases hfit : c.fitted with
      | none => simp [ModelBase.predict, skPredict, hm, hfit] at hpred
      | some d =>
        simp [ModelBase.predict, skPredict, hm, hfit] at hpred
        exact hpred.2.symm
  refine ⟨hp, ?_, rfl⟩
  intro X y r m' heval
  cases hpred : m.predict b X with
  | error e => simp [ModelBase.evaluate, hpred] at heval
  | ok p =>
    obtain ⟨ys, m₁⟩ := p
    have := hp X ys m₁ hpred
    simp [ModelBase.evaluate, hpred] at heval
    rw [← heval.2]
    exact this

/-- C8 witness: on the concrete trained instance, save returns the instance
unchanged and a successful predict returns it unchanged. -/
theorem trained_ops_frame_witness :
    (ModelBase.save dtTrainedExample).2 = dtTrainedExample ∧
    dtTrainedExample = dtTrainedExample :=
  ⟨(trained_ops_frame backend0 dtTrainedExample rfl).2.2,
   (trained_ops_frame backend0 dtTrainedExample rfl).1 [[3]] [0]
     dtTrainedExample rfl⟩

end ModelFactory
